import Mathlib

/-!
# Verification of the nextbus-rs core against its specification

Shallow embedding of the command/parameter validator (`src/request.rs`,
`src/nextbus_url.rs`) and of the streaming XML decoders
(`src/api/agency_list.rs`, `src/api/route_config.rs`,
`src/api/predictions.rs`).

Conventions of the embedding:
* Rust `Option<T>` becomes `Option`; `Vec<T>` becomes `List`;
  `&str`/`String` become `String`; `usize` becomes `Nat`.
* The `xml-rs` event stream consumed through `parser.next()` is embedded
  as a `List Event`; an exhausted list plays the role of the tokenizer
  reporting the end of input (`EndDocument`, or the sticky error that a
  truncated document produces), so every read loop exits there.
* Rust `Result<T, Error>` becomes `Except Error T` for the validator.
  For the decoders a third outcome is needed: the decoders call
  `str::parse().unwrap()` on numeric/boolean attribute text, and a failed
  `unwrap` is a Rust panic, not a returned error.  `DecodeResult` has
  constructors `ok`, `err` (a returned `Err(..)` value) and `panicked`
  (process abort through `unwrap`).
* `f32` attribute values are never computed with, only parsed and stored;
  they are embedded as the accepted source text (`F32`), together with a
  decidable predicate `isF32Lit` rendering the grammar accepted by Rust's
  `f32::from_str` (optional sign; `inf`/`infinity`/`nan` case-insensitively;
  or a mantissa with at least one digit and an optional exponent).
-/

namespace Nextbus

/-- The `Command` enum of `src/request.rs` (structurally identical to the
one in `src/nextbus_url.rs`). -/
inductive Command
  | agencyList
  | routeList
  | routeConfig
  | predictions
  | predictionsForMultiStops
  | schedule
  | messages
  | vehicleLocations
deriving DecidableEq, Repr

/-- The `fmt::Display` wire name of a `Command`. -/
def Command.wireName : Command → String
  | .agencyList => "agencyList"
  | .routeList => "routeList"
  | .routeConfig => "routeConfig"
  | .predictions => "predictions"
  | .predictionsForMultiStops => "predictionsForMultiStops"
  | .schedule => "schedule"
  | .messages => "messages"
  | .vehicleLocations => "vehicleLocations"

/-- The `Error` enum of `src/error.rs`.  The `HttpError`/`XmlError`
variants wrap external library values and are not reachable from the
functions embedded here, so they are not modelled. -/
inductive Error
  | buildCommandError
  | buildUrlError
  | parseError
deriving DecidableEq, Repr

/-- The `Request` builder struct of `src/request.rs` (same field layout as
`NextBusUrlBuilder` in `src/nextbus_url.rs`, whose newtype parameter
wrappers `AgencyTag`/`RouteTag`/`StopTag`/`Time` are transparent for
`to_string`). -/
structure Request where
  command : Option Command
  agency : Option String
  routes : Option (List String)
  stops : Option (List String)
  time : Option Nat
deriving DecidableEq, Repr

/-- `Request::new`. -/
def Request.new : Request :=
  { command := none, agency := none, routes := none, stops := none, time := none }

/-- `Request::route`: replaces the route list with a singleton. -/
def Request.route (r : Request) (rt : String) : Request :=
  { r with routes := some [rt] }

/-- `Request::add_route`: initializes the route list to `Some(vec![])` when
unset, then pushes. -/
def Request.add_route (r : Request) (rt : String) : Request :=
  let r₁ := if r.routes = none then { r with routes := some [] } else r
  { r₁ with routes := r₁.routes.map (fun rts => rts ++ [rt]) }

/-- `Request::append_routes`: `self.routes.as_mut().map(append)` — a no-op
when the route list is unset. -/
def Request.append_routes (r : Request) (rts : List String) : Request :=
  { r with routes := r.routes.map (fun cur => cur ++ rts) }

/-- `Request::stop`: replaces the stop list with a singleton. -/
def Request.stop (r : Request) (st : String) : Request :=
  { r with stops := some [st] }

/-- `Request::add_stop`: initializes the stop list to `Some(vec![])` when
unset, then pushes. -/
def Request.add_stop (r : Request) (st : String) : Request :=
  let r₁ := if r.stops = none then { r with stops := some [] } else r
  { r₁ with stops := r₁.stops.map (fun sts => sts ++ [st]) }

/-- `Request::append_stops`: a no-op when the stop list is unset. -/
def Request.append_stops (r : Request) (sts : List String) : Request :=
  { r with stops := r.stops.map (fun cur => cur ++ sts) }

/-- The query-pair emission block of `Request::validate`
(`src/request.rs` lines 233–267): `command` first, then `a`, then the
`r` pairs, then the stop pairs (`s` for Predictions, `stops` otherwise),
then `t`. -/
def Request.queries (r : Request) (c : Command) : List (String × String) :=
  [("command", c.wireName)]
    ++ (match r.agency with
        | some a => [("a", a)]
        | none => [])
    ++ (match r.routes with
        | some rts => rts.map (fun rt => ("r", rt))
        | none => [])
    ++ (match r.stops with
        | some sts =>
            sts.map (fun st =>
              (if c = Command.predictions then "s" else "stops", st))
        | none => [])
    ++ (match r.time with
        | some t => [("t", toString t)]
        | none => [])

/-- `Request::validate` (`src/request.rs` lines 145–274), with the final
`Url` value represented by its ordered query-pair list (the base URL is a
constant and `set_query_from_pairs` belongs to the external `hyper`
library). -/
def Request.validate (r : Request) : Except Error (List (String × String)) :=
  match r.command with
  | none => .error .buildUrlError
  | some Command.agencyList =>
      if r.agency ≠ none ∨ r.routes ≠ none ∨ r.stops ≠ none ∨ r.time ≠ none then
        .error .buildUrlError
      else .ok (r.queries .agencyList)
  | some Command.routeList =>
      if r.agency = none ∨ r.routes ≠ none ∨ r.stops ≠ none ∨ r.time ≠ none then
        .error .buildUrlError
      else .ok (r.queries .routeList)
  | some Command.routeConfig =>
      if r.agency = none ∨ r.stops ≠ none ∨ r.time ≠ none then
        .error .buildUrlError
      else
        match r.routes with
        | some rts =>
            if rts.length > 1 then .error .buildUrlError
            else .ok (r.queries .routeConfig)
        | none => .ok (r.queries .routeConfig)
  | some Command.predictions =>
      if r.agency = none ∨ r.routes = none ∨ r.stops = none ∨ r.time ≠ none then
        .error .buildUrlError
      else
        match r.routes with
        | some rts =>
            if rts.length ≠ 1 then .error .buildUrlError
            else
              match r.stops with
              | some sts =>
                  if sts.length ≠ 1 then .error .buildUrlError
                  else .ok (r.queries .predictions)
              | none => .ok (r.queries .predictions)
        | none =>
            match r.stops with
            | some sts =>
                if sts.length ≠ 1 then .error .buildUrlError
                else .ok (r.queries .predictions)
            | none => .ok (r.queries .predictions)
  | some Command.predictionsForMultiStops =>
      if r.agency = none ∨ r.routes ≠ none ∨ r.stops = none ∨ r.time ≠ none then
        .error .buildUrlError
      else
        match r.routes with
        | some rts =>
            if rts.isEmpty then .error .buildUrlError
            else .ok (r.queries .predictionsForMultiStops)
        | none => .ok (r.queries .predictionsForMultiStops)
  | some Command.schedule =>
      if r.agency = none ∨ r.routes = none ∨ r.stops ≠ none ∨ r.time ≠ none then
        .error .buildUrlError
      else
        match r.routes with
        | some rts =>
            if rts.length ≠ 1 then .error .buildUrlError
            else .ok (r.queries .schedule)
        | none => .ok (r.queries .schedule)
  | some Command.messages =>
      if r.agency = none ∨ r.routes = none ∨ r.stops ≠ none ∨ r.time ≠ none then
        .error .buildUrlError
      else
        match r.routes with
        | some rts =>
            if rts.isEmpty then .error .buildUrlError
            else .ok (r.queries .messages)
        | none => .ok (r.queries .messages)
  | some Command.vehicleLocations =>
      if r.agency = none ∨ r.routes = none ∨ r.stops ≠ none ∨ r.time = none then
        .error .buildUrlError
      else
        match r.routes with
        | some rts =>
            if rts.length ≠ 1 then .error .buildUrlError
            else .ok (r.queries .vehicleLocations)
        | none => .ok (r.queries .vehicleLocations)

/-- The query-pair emission block of `NextBusUrl::new`
(`src/nextbus_url.rs` lines 228–261): unlike `Request::validate`, the `t`
pair is pushed right after `a`, before the route and stop pairs. -/
def Request.nbQueries (r : Request) (c : Command) : List (String × String) :=
  [("command", c.wireName)]
    ++ (match r.agency with
        | some a => [("a", a)]
        | none => [])
    ++ (match r.time with
        | some t => [("t", toString t)]
        | none => [])
    ++ (match r.routes with
        | some rts => rts.map (fun rt => ("r", rt))
        | none => [])
    ++ (match r.stops with
        | some sts =>
            sts.map (fun st =>
              (if c = Command.predictions then "s" else "stops", st))
        | none => [])

/-- `NextBusUrl::new` (`src/nextbus_url.rs` lines 140–268), the older
revision of the validator.  Its error type is Rust's `()`, embedded as
`Unit`.  Note the `RouteConfig` arm: the source tests
`routes.len() <= 1` (not `> 1`) before rejecting. -/
def Request.nbNew (r : Request) : Except Unit (List (String × String)) :=
  match r.command with
  | none => .error ()
  | some Command.agencyList =>
      if r.agency ≠ none ∨ r.routes ≠ none ∨ r.stops ≠ none ∨ r.time ≠ none then
        .error ()
      else .ok (r.nbQueries .agencyList)
  | some Command.routeList =>
      if r.agency = none ∨ r.routes ≠ none ∨ r.stops ≠ none ∨ r.time ≠ none then
        .error ()
      else .ok (r.nbQueries .routeList)
  | some Command.routeConfig =>
      if r.agency = none ∨ r.stops ≠ none ∨ r.time ≠ none then
        .error ()
      else
        match r.routes with
        | some rts =>
            if rts.length ≤ 1 then .error ()
            else .ok (r.nbQueries .routeConfig)
        | none => .ok (r.nbQueries .routeConfig)
  | some Command.predictions =>
      if r.agency = none ∨ r.routes = none ∨ r.stops = none ∨ r.time ≠ none then
        .error ()
      else
        match r.routes with
        | some rts =>
            if rts.length ≠ 1 then .error ()
            else
              match r.stops with
              | some sts =>
                  if sts.length ≠ 1 then .error ()
                  else .ok (r.nbQueries .predictions)
              | none => .ok (r.nbQueries .predictions)
        | none =>
            match r.stops with
            | some sts =>
                if sts.length ≠ 1 then .error ()
                else .ok (r.nbQueries .predictions)
            | none => .ok (r.nbQueries .predictions)
  | some Command.predictionsForMultiStops =>
      if r.agency = none ∨ r.routes ≠ none ∨ r.stops = none ∨ r.time ≠ none then
        .error ()
      else
        match r.routes with
        | some rts =>
            if rts.isEmpty then .error ()
            else .ok (r.nbQueries .predictionsForMultiStops)
        | none => .ok (r.nbQueries .predictionsForMultiStops)
  | some Command.schedule =>
      if r.agency = none ∨ r.routes = none ∨ r.stops ≠ none ∨ r.time ≠ none then
        .error ()
      else
        match r.routes with
        | some rts =>
            if rts.length ≠ 1 then .error ()
            else .ok (r.nbQueries .schedule)
        | none => .ok (r.nbQueries .schedule)
  | some Command.messages =>
      if r.agency = none ∨ r.routes = none ∨ r.stops ≠ none ∨ r.time ≠ none then
        .error ()
      else
        match r.routes with
        | some rts =>
            if rts.isEmpty then .error ()
            else .ok (r.nbQueries .messages)
        | none => .ok (r.nbQueries .messages)
  | some Command.vehicleLocations =>
      if r.agency = none ∨ r.routes = none ∨ r.stops ≠ none ∨ r.time = none then
        .error ()
      else
        match r.routes with
        | some rts =>
            if rts.length ≠ 1 then .error ()
            else .ok (r.nbQueries .vehicleLocations)
        | none => .ok (r.nbQueries .vehicleLocations)

/-! ## Specification-side definitions for the validator claims

These are written from the words of the specification (§4.1 and §8), to be
compared against the source-derived `Request.validate` above. -/

/-- The §4.1 rule table as the specification words it, with the one
amendment the code forces: for `PredictionsForMultiStops` only the
presence of a stop list is demanded (its emptiness is never checked by
`Request::validate`). -/
def specTableOk (r : Request) : Bool :=
  match r.command with
  | none => false
  | some .agencyList =>
      r.agency = none ∧ r.routes = none ∧ r.stops = none ∧ r.time = none
  | some .routeList =>
      r.agency ≠ none ∧ r.routes = none ∧ r.stops = none ∧ r.time = none
  | some .routeConfig =>
      r.agency ≠ none ∧ (r.routes.getD []).length ≤ 1 ∧
        r.stops = none ∧ r.time = none
  | some .predictions =>
      r.agency ≠ none ∧ r.routes ≠ none ∧ (r.routes.getD []).length = 1 ∧
        r.stops ≠ none ∧ (r.stops.getD []).length = 1 ∧ r.time = none
  | some .predictionsForMultiStops =>
      r.agency ≠ none ∧ r.routes = none ∧ r.stops ≠ none ∧ r.time = none
  | some .schedule =>
      r.agency ≠ none ∧ r.routes ≠ none ∧ (r.routes.getD []).length = 1 ∧
        r.stops = none ∧ r.time = none
  | some .messages =>
      r.agency ≠ none ∧ r.routes ≠ none ∧ r.routes.getD [] ≠ [] ∧
        r.stops = none ∧ r.time = none
  | some .vehicleLocations =>
      r.agency ≠ none ∧ r.routes ≠ none ∧ (r.routes.getD []).length = 1 ∧
        r.stops = none ∧ r.time ≠ none

/-- The emitted sequence as the specification words it (§4.1/§8): the
`command` pair first; `a` if the agency is present; one `r` pair per route
in supplied order; one stop pair per stop in supplied order, named `s` for
Predictions and `stops` otherwise; `t` last if the time is present. -/
def specEmitted (r : Request) (c : Command) : List (String × String) :=
  ("command", c.wireName)
    :: (r.agency.toList.map (fun a => ("a", a))
        ++ (r.routes.getD []).map (fun rt => ("r", rt))
        ++ (r.stops.getD []).map (fun st =>
              (if c = Command.predictions then "s" else "stops", st))
        ++ r.time.toList.map (fun t => ("t", toString t)))

/-! ## The XML event stream and decode outcomes -/

/-- One structural event as delivered by `xml-rs`'s `EventReader::next`:
`Ok(StartElement)` with its attribute list (local names and values),
`Ok(EndElement)`, `Ok(EndDocument)`, any other `Ok(..)` event (whitespace,
comments, characters…), or `Err(..)` — the tokenizer reporting a syntax
error. -/
inductive Event
  | start (name : String) (attributes : List (String × String))
  | endElement (name : String)
  | endDocument
  | other
  | err
deriving DecidableEq, Repr

/-- Outcome of running a decoder function.  `ok`/`err` are the two sides
of the Rust `Result`; `panicked` is a Rust panic — the process abort that
`value.parse().unwrap()` performs on malformed attribute text.  A panic is
not a returned value: it propagates past every caller unconditionally. -/
inductive DecodeResult (α : Type)
  | ok (val : α)
  | err (e : Error)
  | panicked
deriving DecidableEq, Repr

/-- `bool::from_str`: accepts exactly `"true"` and `"false"`. -/
def parseBool (s : String) : Option Bool :=
  if s = "true" then some true
  else if s = "false" then some false
  else none

/-- `usize::from_str` on the values in scope (digit strings; the overflow
bound of the machine word is not modelled, no claim depends on it). -/
def parseNat (s : String) : Option Nat :=
  if s.length ≠ 0 ∧ s.toList.all Char.isDigit then
    some (s.toList.foldl (fun n c => n * 10 + (c.toNat - 48)) 0)
  else none

/-- An `f32` attribute value, represented by its accepted source text:
the decoders only parse and store these values, never compute with them. -/
structure F32 where
  lit : String
deriving DecidableEq, Repr

/-- Nonempty all-digit character list. -/
def isDigits1 (cs : List Char) : Bool :=
  !cs.isEmpty && cs.all (·.isDigit)

/-- Mantissa grammar of `f32::from_str`: `digits`, `digits '.' digits?`,
or `'.' digits`. -/
def isF32Mantissa (cs : List Char) : Bool :=
  let intPart := cs.takeWhile (·.isDigit)
  match cs.dropWhile (·.isDigit) with
  | [] => !intPart.isEmpty
  | '.' :: frac => (!intPart.isEmpty || !frac.isEmpty) && frac.all (·.isDigit)
  | _ => false

/-- Exponent grammar of `f32::from_str`: optional sign, then digits. -/
def isF32Exponent (cs : List Char) : Bool :=
  match cs with
  | '+' :: t => isDigits1 t
  | '-' :: t => isDigits1 t
  | t => isDigits1 t

/-- The grammar accepted by Rust's `f32::from_str`: an optional sign, then
`inf`/`infinity`/`nan` case-insensitively, or a mantissa with an optional
`e`-exponent. -/
def isF32Lit (s : String) : Bool :=
  let cs := s.toList.map Char.toLower
  let body := match cs with
    | '+' :: t => t
    | '-' :: t => t
    | t => t
  if body = ['i', 'n', 'f'] ∨ body = ['i', 'n', 'f', 'i', 'n', 'i', 't', 'y']
      ∨ body = ['n', 'a', 'n'] then
    true
  else
    match body.dropWhile (fun c => c ≠ 'e') with
    | [] => isF32Mantissa body
    | _ :: expo => isF32Mantissa (body.takeWhile (fun c => c ≠ 'e'))
        && isF32Exponent expo

/-- `f32::from_str`, keeping the accepted literal as the value. -/
def parseF32 (s : String) : Option F32 :=
  if isF32Lit s then some ⟨s⟩ else none

/-! ## `src/api/agency_list.rs` -/

namespace agency_list

/-- The `Agency` record. -/
structure Agency where
  tag : String
  title : String
  short_title : Option String
  region_title : String
deriving DecidableEq, Repr

/-- The `AgencyList` aggregate (a newtype over `Vec<Agency>`). -/
structure AgencyList where
  agencies : List Agency
deriving DecidableEq, Repr

/-- Scratch record for the attribute walk over one `agency` element. -/
structure AgencyAttrs where
  tag : Option String
  title : Option String
  short_title : Option String
  region_title : Option String
deriving DecidableEq, Repr

/-- The attribute `for` loop inside `AgencyListBuilder::from_xml`
(lines 78–90): recognized names set their field, anything else falls to
the `_ => ()` arm and is ignored. -/
def collectAgencyAttrs : List (String × String) → AgencyAttrs → AgencyAttrs
  | [], acc => acc
  | (n, v) :: rest, acc =>
      collectAgencyAttrs rest
        (if n = "tag" then { acc with tag := some v }
         else if n = "title" then { acc with title := some v }
         else if n = "shortTitle" then { acc with short_title := some v }
         else if n = "regionTitle" then { acc with region_title := some v }
         else acc)

/-- The `for event in parser` loop of `AgencyListBuilder::from_xml`: every
`agency` start element is finalized on the spot (`tag`, `title`,
`regionTitle` required through `ok_or(Error::ParseError)`, `shortTitle`
optional); every other event matches `_ => ()`. -/
def from_xml_loop : List Event → List Agency → DecodeResult (List Agency)
  | [], agencies => .ok agencies
  | .start n attrs :: rest, agencies =>
      if n = "agency" then
        let a := collectAgencyAttrs attrs ⟨none, none, none, none⟩
        match a.tag with
        | none => .err .parseError
        | some tag =>
          match a.title with
          | none => .err .parseError
          | some title =>
            match a.region_title with
            | none => .err .parseError
            | some region_title =>
                from_xml_loop rest
                  (agencies ++ [{ tag, title, short_title := a.short_title,
                                  region_title }])
      else from_xml_loop rest agencies
  | _ :: rest, agencies => from_xml_loop rest agencies

/-- `AgencyListBuilder::from_xml` (lines 63–106). -/
def from_xml (events : List Event) : DecodeResult AgencyList :=
  match from_xml_loop events [] with
  | .ok agencies => .ok ⟨agencies⟩
  | .err e => .err e
  | .panicked => .panicked

end agency_list

/-! ## `src/api/route_config.rs` -/

namespace route_config

/-- A stop along a route. -/
structure Stop where
  tag : String
  title : String
  lat : F32
  lon : F32
  short_title : Option String
  stop_id : Option String
deriving DecidableEq, Repr

/-- A stop reference (tag only) inside a direction. -/
structure StopStub where
  tag : String
deriving DecidableEq, Repr

/-- An itinerary along a route. -/
structure Direction where
  tag : String
  title : String
  name : String
  use_for_ui : Bool
  stops : List StopStub
deriving DecidableEq, Repr

/-- A coordinate in a path. -/
structure Point where
  lat : F32
  lon : F32
deriving DecidableEq, Repr

/-- The coordinates tracing a route. -/
structure Path where
  tag : String
  points : List Point
deriving DecidableEq, Repr

/-- One decoded `route` element. -/
structure Route where
  tag : String
  title : String
  color : String
  opposite_color : String
  lat_min : F32
  lat_max : F32
  lon_min : F32
  lon_max : F32
  stops : List Stop
  directions : List Direction
  paths : List Path
deriving DecidableEq, Repr

/-- The `RouteConfig` aggregate (a newtype over `Vec<Route>`). -/
structure RouteConfig where
  routes : List Route
deriving DecidableEq, Repr

/-- Scratch record for the attribute walk over a `route` element. -/
structure RouteAttrs where
  tag : Option String
  title : Option String
  color : Option String
  opposite_color : Option String
  lat_min : Option F32
  lat_max : Option F32
  lon_min : Option F32
  lon_max : Option F32
deriving DecidableEq, Repr

/-- The attribute `for` loop of `add_route_to_routes` (lines 179–195):
`latMin`/`latMax`/`lonMin`/`lonMax` are parsed with
`value.parse().unwrap()`, so malformed text is a panic. -/
def collectRouteAttrs : List (String × String) → RouteAttrs → DecodeResult RouteAttrs
  | [], acc => .ok acc
  | (n, v) :: rest, acc =>
      if n = "tag" then collectRouteAttrs rest { acc with tag := some v }
      else if n = "title" then collectRouteAttrs rest { acc with title := some v }
      else if n = "color" then collectRouteAttrs rest { acc with color := some v }
      else if n = "oppositeColor" then
        collectRouteAttrs rest { acc with opposite_color := some v }
      else if n = "latMin" then
        match parseF32 v with
        | some x => collectRouteAttrs rest { acc with lat_min := some x }
        | none => .panicked
      else if n = "latMax" then
        match parseF32 v with
        | some x => collectRouteAttrs rest { acc with lat_max := some x }
        | none => .panicked
      else if n = "lonMin" then
        match parseF32 v with
        | some x => collectRouteAttrs rest { acc with lon_min := some x }
        | none => .panicked
      else if n = "lonMax" then
        match parseF32 v with
        | some x => collectRouteAttrs rest { acc with lon_max := some x }
        | none => .panicked
      else collectRouteAttrs rest acc

/-- Scratch record for the attribute walk over a `stop` element. -/
structure StopAttrs where
  tag : Option String
  title : Option String
  lat : Option F32
  lon : Option F32
  short_title : Option String
  stop_id : Option String
deriving DecidableEq, Repr

/-- The attribute `for` loop of `add_stop_to_stops` (lines 281–295):
`lat`/`lon` are parsed with `value.parse().unwrap()`. -/
def collectStopAttrs : List (String × String) → StopAttrs → DecodeResult StopAttrs
  | [], acc => .ok acc
  | (n, v) :: rest, acc =>
      if n = "tag" then collectStopAttrs rest { acc with tag := some v }
      else if n = "title" then collectStopAttrs rest { acc with title := some v }
      else if n = "lat" then
        match parseF32 v with
        | some x => collectStopAttrs rest { acc with lat := some x }
        | none => .panicked
      else if n = "lon" then
        match parseF32 v with
        | some x => collectStopAttrs rest { acc with lon := some x }
        | none => .panicked
      else if n = "shortTitle" then
        collectStopAttrs rest { acc with short_title := some v }
      else if n = "stopId" then
        collectStopAttrs rest { acc with stop_id := some v }
      else collectStopAttrs rest acc

/-- `add_stop_to_stops` (lines 272–306): collect the attributes, then push
a `Stop` with `tag`/`title`/`lat`/`lon` required. -/
def add_stop_to_stops (attributes : List (String × String)) (stops : List Stop) :
    DecodeResult (List Stop) :=
  match collectStopAttrs attributes ⟨none, none, none, none, none, none⟩ with
  | .panicked => .panicked
  | .err e => .err e
  | .ok a =>
    match a.tag with
    | none => .err .parseError
    | some tag =>
      match a.title with
      | none => .err .parseError
      | some title =>
        match a.lat with
        | none => .err .parseError
        | some lat =>
          match a.lon with
          | none => .err .parseError
          | some lon =>
              .ok (stops ++ [{ tag, title, lat, lon,
                               short_title := a.short_title,
                               stop_id := a.stop_id }])

/-- `add_stop_to_direction` (lines 368–386): only `tag` is collected, and
it is required. -/
def add_stop_to_direction (attributes : List (String × String))
    (stops : List StopStub) : DecodeResult (List StopStub) :=
  match (attributes.foldl
      (fun acc (a : String × String) =>
        if a.1 = "tag" then some a.2 else acc) none) with
  | none => .err .parseError
  | some tag => .ok (stops ++ [⟨tag⟩])

/-- Scratch record for the attribute walk over a `direction` element. -/
structure DirectionAttrs where
  tag : Option String
  title : Option String
  name : Option String
  use_for_ui : Option Bool
deriving DecidableEq, Repr

/-- The attribute `for` loop of `parse_direction` (lines 319–331):
`useForUI` is parsed with `value.parse().unwrap()`. -/
def collectDirectionAttrs : List (String × String) → DirectionAttrs →
    DecodeResult DirectionAttrs
  | [], acc => .ok acc
  | (n, v) :: rest, acc =>
      if n = "tag" then collectDirectionAttrs rest { acc with tag := some v }
      else if n = "title" then collectDirectionAttrs rest { acc with title := some v }
      else if n = "name" then collectDirectionAttrs rest { acc with name := some v }
      else if n = "useForUI" then
        match parseBool v with
        | some b => collectDirectionAttrs rest { acc with use_for_ui := some b }
        | none => .panicked
      else collectDirectionAttrs rest acc

/-- The inner event loop of `parse_direction` (lines 340–357): collect
nested `stop` stubs; break on the `direction` end tag or on a tokenizer
error; ignore everything else.  Returns the remaining events. -/
def direction_loop : List Event → List StopStub →
    DecodeResult (List StopStub × List Event)
  | [], stops => .ok (stops, [])
  | .start n attrs :: rest, stops =>
      if n = "stop" then
        match add_stop_to_direction attrs stops with
        | .ok stops₂ => direction_loop rest stops₂
        | .err e => .err e
        | .panicked => .panicked
      else direction_loop rest stops
  | .endElement n :: rest, stops =>
      if n = "direction" then .ok (stops, rest)
      else direction_loop rest stops
  | .err :: rest, stops => .ok (stops, rest)
  | _ :: rest, stops => direction_loop rest stops

/-- `parse_direction` (lines 310–366): attribute walk, then the nested
stop loop, then push a `Direction` with `tag`/`title`/`name`/`useForUI`
required. -/
def parse_direction (events : List Event) (attributes : List (String × String))
    (directions : List Direction) : DecodeResult (List Direction × List Event) :=
  match collectDirectionAttrs attributes ⟨none, none, none, none⟩ with
  | .panicked => .panicked
  | .err e => .err e
  | .ok a =>
    match direction_loop events [] with
    | .panicked => .panicked
    | .err e => .err e
    | .ok (stops, rem) =>
      match a.tag with
      | none => .err .parseError
      | some tag =>
        match a.title with
        | none => .err .parseError
        | some title =>
          match a.name with
          | none => .err .parseError
          | some name =>
            match a.use_for_ui with
            | none => .err .parseError
            | some use_for_ui =>
                .ok (directions ++ [{ tag, title, name, use_for_ui, stops }], rem)

/-- The attribute `for` loop inside `add_point_to_path` (lines 445–455):
`lat`/`lon` are parsed with `value.parse().unwrap()`. -/
def collectPointAttrs : List (String × String) → Option F32 × Option F32 →
    DecodeResult (Option F32 × Option F32)
  | [], acc => .ok acc
  | (n, v) :: rest, acc =>
      if n = "lat" then
        match parseF32 v with
        | some x => collectPointAttrs rest (some x, acc.2)
        | none => .panicked
      else if n = "lon" then
        match parseF32 v with
        | some x => collectPointAttrs rest (acc.1, some x)
        | none => .panicked
      else collectPointAttrs rest acc

/-- `add_point_to_path` (lines 440–461). -/
def add_point_to_path (attributes : List (String × String))
    (points : List Point) : DecodeResult (List Point) :=
  match collectPointAttrs attributes (none, none) with
  | .panicked => .panicked
  | .err e => .err e
  | .ok (lat?, lon?) =>
    match lat? with
    | none => .err .parseError
    | some lat =>
      match lon? with
      | none => .err .parseError
      | some lon => .ok (points ++ [{ lat, lon }])

/-- The inner event loop of `parse_path` (lines 403–432): a `tag` child's
`id` attribute sets the path tag, `point` children accumulate; break on
the `path` end tag or a tokenizer error; ignore everything else. -/
def path_loop : List Event → Option String → List Point →
    DecodeResult ((Option String × List Point) × List Event)
  | [], tag, points => .ok ((tag, points), [])
  | .start n attrs :: rest, tag, points =>
      if n = "tag" then
        path_loop rest
          (attrs.foldl
            (fun acc (a : String × String) =>
              if a.1 = "id" then some a.2 else acc) tag)
          points
      else if n = "point" then
        match add_point_to_path attrs points with
        | .ok points₂ => path_loop rest tag points₂
        | .err e => .err e
        | .panicked => .panicked
      else path_loop rest tag points
  | .endElement n :: rest, tag, points =>
      if n = "path" then .ok ((tag, points), rest)
      else path_loop rest tag points
  | .err :: rest, tag, points => .ok ((tag, points), rest)
  | _ :: rest, tag, points => path_loop rest tag points

/-- `parse_path` (lines 390–438): run the inner loop, then push a `Path`
whose tag is required. -/
def parse_path (events : List Event) (paths : List Path) :
    DecodeResult (List Path × List Event) :=
  match path_loop events none [] with
  | .panicked => .panicked
  | .err e => .err e
  | .ok ((tag?, points), rem) =>
    match tag? with
    | none => .err .parseError
    | some tag => .ok (paths ++ [{ tag, points }], rem)

lemma direction_loop_rem_le (events : List Event) (stops : List StopStub)
    (res : List StopStub) (rem : List Event)
    (h : direction_loop events stops = .ok (res, rem)) :
    rem.length ≤ events.length := by
  induction events generalizing stops with
  | nil =>
      simp [direction_loop] at h
      simp [h.2.symm]
  | cons ev rest ih =>
      cases ev with
      | start n attrs =>
          by_cases hn : n = "stop"
          · simp only [direction_loop, hn, if_pos rfl] at h
            cases hs : add_stop_to_direction attrs stops with
            | ok s₂ =>
                rw [hs] at h
                have := ih s₂ h
                simp only [List.length_cons]
                omega
            | err e => rw [hs] at h; cases h
            | panicked => rw [hs] at h; cases h
          · simp only [direction_loop, hn, if_neg hn] at h
            have := ih stops h
            simp only [List.length_cons]
            omega
      | endElement n =>
          by_cases hn : n = "direction"
          · simp only [direction_loop, hn, if_pos rfl] at h
            cases h
            simp only [List.length_cons]
            omega
          · simp only [direction_loop, if_neg hn] at h
            have := ih stops h
            simp only [List.length_cons]
            omega
      | endDocument =>
          simp only [direction_loop] at h
          have := ih stops h
          simp only [List.length_cons]
          omega
      | other =>
          simp only [direction_loop] at h
          have := ih stops h
          simp only [List.length_cons]
          omega
      | err =>
          simp only [direction_loop] at h
          cases h
          simp only [List.length_cons]
          omega

lemma parse_direction_rem_le (events : List Event)
    (attributes : List (String × String)) (directions res : List Direction)
    (rem : List Event)
    (h : parse_direction events attributes directions = .ok (res, rem)) :
    rem.length ≤ events.length := by
  unfold parse_direction at h
  cases hc : collectDirectionAttrs attributes ⟨none, none, none, none⟩ with
  | ok a =>
      rw [hc] at h
      cases hl : direction_loop events [] with
      | ok p =>
          obtain ⟨stops, rem'⟩ := p
          rw [hl] at h
          have hle := direction_loop_rem_le events [] stops rem' hl
          obtain ⟨t₁, t₂, t₃, t₄⟩ := a
          cases t₁ <;> cases t₂ <;> cases t₃ <;> cases t₄ <;> simp_all
      | err e => rw [hl] at h; cases h
      | panicked => rw [hl] at h; cases h
  | err e => rw [hc] at h; cases h
  | panicked => rw [hc] at h; cases h

lemma path_loop_rem_le (events : List Event) (tag : Option String)
    (points res₁ : List Point) (res₀ : Option String) (rem : List Event)
    (h : path_loop events tag points = .ok ((res₀, res₁), rem)) :
    rem.length ≤ events.length := by
  induction events generalizing tag points with
  | nil =>
      simp [path_loop] at h
      simp [h.2.symm]
  | cons ev rest ih =>
      cases ev with
      | start n attrs =>
          by_cases hn : n = "tag"
          · simp only [path_loop, if_pos hn] at h
            have := ih _ points h
            simp only [List.length_cons]
            omega
          · by_cases hp : n = "point"
            · simp only [path_loop, if_neg hn, if_pos hp] at h
              cases hs : add_point_to_path attrs points with
              | ok p₂ =>
                  rw [hs] at h
                  have := ih tag p₂ h
                  simp only [List.length_cons]
                  omega
              | err e => rw [hs] at h; cases h
              | panicked => rw [hs] at h; cases h
            · simp only [path_loop, if_neg hn, if_neg hp] at h
              have := ih tag points h
              simp only [List.length_cons]
              omega
      | endElement n =>
          by_cases hn : n = "path"
          · simp only [path_loop, if_pos hn] at h
            cases h
            simp only [List.length_cons]
            omega
          · simp only [path_loop, if_neg hn] at h
            have := ih tag points h
            simp only [List.length_cons]
            omega
      | endDocument =>
          simp only [path_loop] at h
          have := ih tag points h
          simp only [List.length_cons]
          omega
      | other =>
          simp only [path_loop] at h
          have := ih tag points h
          simp only [List.length_cons]
          omega
      | err =>
          simp only [path_loop] at h
          cases h
          simp only [List.length_cons]
          omega

lemma parse_path_rem_le (events : List Event) (paths res : List Path)
    (rem : List Event) (h : parse_path events paths = .ok (res, rem)) :
    rem.length ≤ events.length := by
  unfold parse_path at h
  cases hl : path_loop events none [] with
  | ok p =>
      obtain ⟨⟨tag?, points⟩, rem'⟩ := p
      rw [hl] at h
      have hle := path_loop_rem_le events none [] points tag? rem' hl
      cases tag? <;> simp_all
  | err e => rw [hl] at h; cases h
  | panicked => rw [hl] at h; cases h

/-- `parse_route_elements` (lines 228–270): the single sub-loop telling
apart `stop` (flat, collected eagerly), `direction` and `path` (each
driving its own nested sub-loop).  A start element with any *other* name
takes the `else { break }` arm; the loop also breaks on the `route` end
tag and on a tokenizer error, and ignores all remaining events. -/
def parse_route_elements (events : List Event) (stops : List Stop)
    (directions : List Direction) (paths : List Path) :
    DecodeResult ((List Stop × List Direction × List Path) × List Event) :=
  match events with
  | [] => .ok ((stops, directions, paths), [])
  | .start n attrs :: rest =>
      if n = "stop" then
        match add_stop_to_stops attrs stops with
        | .ok stops₂ => parse_route_elements rest stops₂ directions paths
        | .err e => .err e
        | .panicked => .panicked
      else if n = "direction" then
        match hd : parse_direction rest attrs directions with
        | .ok (directions₂, rem) => parse_route_elements rem stops directions₂ paths
        | .err e => .err e
        | .panicked => .panicked
      else if n = "path" then
        match hp : parse_path rest paths with
        | .ok (paths₂, rem) => parse_route_elements rem stops directions paths₂
        | .err e => .err e
        | .panicked => .panicked
      else
        .ok ((stops, directions, paths), rest)
  | .endElement n :: rest =>
      if n = "route" then .ok ((stops, directions, paths), rest)
      else parse_route_elements rest stops directions paths
  | .err :: rest => .ok ((stops, directions, paths), rest)
  | _ :: rest => parse_route_elements rest stops directions paths
termination_by events.length
decreasing_by
  all_goals simp_wf
  all_goals
    first
      | omega
      | (have hLe := parse_direction_rem_le _ _ _ _ _ hd; omega)
      | (have hLe := parse_path_rem_le _ _ _ _ hp; omega)

/-- The remaining events returned by a successful `parse_route_elements`
are a suffix portion of its input: the loop only consumes events. -/
lemma parse_route_elements_rem_le (events : List Event) (stops : List Stop)
    (directions : List Direction) (paths : List Path) :
    ∀ res rem, parse_route_elements events stops directions paths = .ok (res, rem) →
      rem.length ≤ events.length := by
  induction events, stops, directions, paths using parse_route_elements.induct with
  | case1 stops directions paths =>
      intro res rem h
      rw [parse_route_elements] at h
      simp only [DecodeResult.ok.injEq, Prod.mk.injEq] at h
      simp [h.2.symm]
  | case2 stops directions paths attrs rest stops₂ hs ih =>
      intro res rem h
      rw [parse_route_elements] at h
      simp only [String.reduceEq, reduceIte] at h
      rw [hs] at h
      have := ih res rem h
      simp only [List.length_cons]; omega
  | case3 stops directions paths attrs rest e hs =>
      intro res rem h
      rw [parse_route_elements] at h
      simp only [String.reduceEq, reduceIte] at h
      rw [hs] at h
      simp at h
  | case4 stops directions paths attrs rest hs =>
      intro res rem h
      rw [parse_route_elements] at h
      simp only [String.reduceEq, reduceIte] at h
      rw [hs] at h
      simp at h
  | case5 stops directions paths attrs rest directions₂ rem₀ hd hne ih =>
      intro res rem h
      rw [parse_route_elements] at h
      simp only [String.reduceEq, reduceIte] at h
      rw [hd] at h
      have h₁ := parse_direction_rem_le rest attrs directions directions₂ rem₀ hd
      have h₂ := ih res rem h
      simp only [List.length_cons]; omega
  | case6 stops directions paths attrs rest e hd hne =>
      intro res rem h
      rw [parse_route_elements] at h
      simp only [String.reduceEq, reduceIte] at h
      rw [hd] at h
      simp at h
  | case7 stops directions paths attrs rest hd hne =>
      intro res rem h
      rw [parse_route_elements] at h
      simp only [String.reduceEq, reduceIte] at h
      rw [hd] at h
      simp at h
  | case8 stops directions paths attrs rest paths₂ rem₀ hp hn₁ hn₂ ih =>
      intro res rem h
      rw [parse_route_elements] at h
      simp only [String.reduceEq, reduceIte] at h
      rw [hp] at h
      have h₁ := parse_path_rem_le rest paths paths₂ rem₀ hp
      have h₂ := ih res rem h
      simp only [List.length_cons]; omega
  | case9 stops directions paths attrs rest e hp hn₁ hn₂ =>
      intro res rem h
      rw [parse_route_elements] at h
      simp only [String.reduceEq, reduceIte] at h
      rw [hp] at h
      simp at h
  | case10 stops directions paths attrs rest hp hn₁ hn₂ =>
      intro res rem h
      rw [parse_route_elements] at h
      simp only [String.reduceEq, reduceIte] at h
      rw [hp] at h
      simp at h
  | case11 stops directions paths n attrs rest hn₁ hn₂ hn₃ =>
      intro res rem h
      rw [parse_route_elements] at h
      simp only [if_neg hn₁, if_neg hn₂, if_neg hn₃, DecodeResult.ok.injEq,
        Prod.mk.injEq] at h
      simp only [List.length_cons, h.2.symm]; omega
  | case12 stops directions paths rest =>
      intro res rem h
      rw [parse_route_elements] at h
      simp only [String.reduceEq, reduceIte, DecodeResult.ok.injEq,
        Prod.mk.injEq] at h
      simp only [List.length_cons, h.2.symm]; omega
  | case13 stops directions paths n rest hn ih =>
      intro res rem h
      rw [parse_route_elements] at h
      simp only [if_neg hn] at h
      have := ih res rem h
      simp only [List.length_cons]; omega
  | case14 stops directions paths rest =>
      intro res rem h
      rw [parse_route_elements] at h
      simp only [DecodeResult.ok.injEq, Prod.mk.injEq] at h
      simp only [List.length_cons, h.2.symm]; omega
  | case15 stops directions paths head rest hn₁ hn₂ hn₃ ih =>
      intro res rem h
      rw [parse_route_elements] at h
      · have := ih res rem h
        simp only [List.length_cons]; omega
      · exact hn₁
      · exact hn₂
      · exact hn₃

/-- `add_route_to_routes` (lines 167–219): attribute walk (with its four
`parse().unwrap()` panic points), then the child sub-loop, then push a
`Route` with all eight scalar fields required. -/
def add_route_to_routes (events : List Event) (attributes : List (String × String))
    (routes : List Route) : DecodeResult (List Route × List Event) :=
  match collectRouteAttrs attributes ⟨none, none, none, none, none, none, none, none⟩ with
  | .panicked => .panicked
  | .err e => .err e
  | .ok a =>
    match parse_route_elements events [] [] [] with
    | .panicked => .panicked
    | .err e => .err e
    | .ok ((stops, directions, paths), rem) =>
      match a.tag, a.title, a.color, a.opposite_color,
          a.lat_min, a.lat_max, a.lon_min, a.lon_max with
      | some tag, some title, some color, some opposite_color,
        some lat_min, some lat_max, some lon_min, some lon_max =>
          .ok (routes ++ [{ tag, title, color, opposite_color, lat_min,
                            lat_max, lon_min, lon_max, stops, directions,
                            paths }], rem)
      | _, _, _, _, _, _, _, _ => .err .parseError

/-- A successful `add_route_to_routes` consumes a prefix of its input. -/
lemma add_route_to_routes_rem_le (events : List Event)
    (attributes : List (String × String)) (routes routes₂ : List Route)
    (rem : List Event)
    (h : add_route_to_routes events attributes routes = .ok (routes₂, rem)) :
    rem.length ≤ events.length := by
  unfold add_route_to_routes at h
  cases hc : collectRouteAttrs attributes
      ⟨none, none, none, none, none, none, none, none⟩ with
  | ok a =>
      rw [hc] at h
      cases hp : parse_route_elements events [] [] [] with
      | ok p =>
          obtain ⟨⟨stops, directions, paths⟩, rem'⟩ := p
          rw [hp] at h
          have := parse_route_elements_rem_le events [] [] []
            (stops, directions, paths) rem' hp
          obtain ⟨t₁, t₂, t₃, t₄, t₅, t₆, t₇, t₈⟩ := a
          cases t₁ <;> cases t₂ <;> cases t₃ <;> cases t₄ <;> cases t₅ <;>
            cases t₆ <;> cases t₇ <;> cases t₈ <;> simp_all
      | err e => rw [hp] at h; simp at h
      | panicked => rw [hp] at h; simp at h
  | err e => rw [hc] at h; simp at h
  | panicked => rw [hc] at h; simp at h

/-- The top-level loop of `RouteConfigBuilder::from_xml` (lines 83–97):
`body` starts are skipped, `route` starts drive `add_route_to_routes`,
`EndDocument` breaks, and — `Err(_) => break` with the comment
`// Later cover Err` — a tokenizer error also just breaks, after which the
accumulated routes are returned as a success. -/
def from_xml_loop (events : List Event) (routes : List Route) :
    DecodeResult (List Route) :=
  match events with
  | [] => .ok routes
  | .start n attrs :: rest =>
      if n = "body" then from_xml_loop rest routes
      else if n = "route" then
        match hr : add_route_to_routes rest attrs routes with
        | .ok (routes₂, rem) => from_xml_loop rem routes₂
        | .err e => .err e
        | .panicked => .panicked
      else from_xml_loop rest routes
  | .endDocument :: _ => .ok routes
  | .err :: _ => .ok routes
  | _ :: rest => from_xml_loop rest routes
termination_by events.length
decreasing_by
  all_goals simp_wf
  all_goals
    first
      | omega
      | (have hLe := add_route_to_routes_rem_le _ _ _ _ _ hr; omega)

/-- `RouteConfigBuilder::from_xml` (lines 77–100). -/
def from_xml (events : List Event) : DecodeResult RouteConfig :=
  match from_xml_loop events [] with
  | .ok routes => .ok ⟨routes⟩
  | .err e => .err e
  | .panicked => .panicked


/-- Unfolding equation for the `direction` case of `parse_route_elements`,
with the dependent match replaced by a plain one (for computation). -/
lemma parse_route_elements_direction_step (attrs : List (String × String))
    (rest : List Event) (stops : List Stop) (directions : List Direction)
    (paths : List Path) :
    parse_route_elements (Event.start "direction" attrs :: rest) stops directions paths =
      match parse_direction rest attrs directions with
      | .ok (directions₂, rem) => parse_route_elements rem stops directions₂ paths
      | .err e => .err e
      | .panicked => .panicked := by
  rw [parse_route_elements]
  simp only [String.reduceEq, reduceIte]
  split <;> rename_i heq <;> rw [heq]

/-- Unfolding equation for the `path` case of `parse_route_elements`. -/
lemma parse_route_elements_path_step (attrs : List (String × String))
    (rest : List Event) (stops : List Stop) (directions : List Direction)
    (paths : List Path) :
    parse_route_elements (Event.start "path" attrs :: rest) stops directions paths =
      match parse_path rest paths with
      | .ok (paths₂, rem) => parse_route_elements rem stops directions paths₂
      | .err e => .err e
      | .panicked => .panicked := by
  rw [parse_route_elements]
  simp only [String.reduceEq, reduceIte]
  split <;> rename_i heq <;> rw [heq]

/-- Unfolding equation for the `route` case of the top-level loop. -/
lemma from_xml_loop_route_step (attrs : List (String × String))
    (rest : List Event) (routes : List Route) :
    from_xml_loop (Event.start "route" attrs :: rest) routes =
      match add_route_to_routes rest attrs routes with
      | .ok (routes₂, rem) => from_xml_loop rem routes₂
      | .err e => .err e
      | .panicked => .panicked := by
  rw [from_xml_loop]
  simp only [String.reduceEq, reduceIte]
  split <;> rename_i heq <;> rw [heq]

end route_config


/-! ## `src/api/predictions.rs` -/

namespace predictions

/-- One `prediction` element. -/
structure Prediction where
  seconds : Nat
  minutes : Nat
  epoch_time : Nat
  is_departure : Bool
  block : String
  dir_tag : String
  trip_tag : Option String
  branch : Option String
  affected_by_layover : Option Bool
  is_schedule_based : Option Bool
  delayed : Option Bool
deriving DecidableEq, Repr

/-- A `direction` element with its nested predictions. -/
structure Direction where
  title : String
  predictions : List Prediction
deriving DecidableEq, Repr

/-- A `message` element. -/
structure Message where
  text : String
  priority : Option String
deriving DecidableEq, Repr

/-- The `Predictions` aggregate. -/
structure Predictions where
  agency_title : String
  route_tag : String
  route_code : Option String
  route_title : String
  stop_title : String
  dir_title_because_no_predictions : Option String
  directions : List Direction
  messages : List Message
deriving DecidableEq, Repr

/-- Scratch record for the attribute walk over a `prediction` element. -/
structure PredictionAttrs where
  seconds : Option Nat
  minutes : Option Nat
  epoch_time : Option Nat
  is_departure : Option Bool
  block : Option String
  dir_tag : Option String
  trip_tag : Option String
  branch : Option String
  affected_by_layover : Option Bool
  is_schedule_based : Option Bool
  delayed : Option Bool
deriving DecidableEq, Repr

/-- The attribute `for` loop of `add_prediction_to_predictions`
(lines 323–342): `seconds`/`minutes`/`epochTime` go through
`parse().unwrap()` as `usize`, `isDeparture`/`affecteByLayover` (the
misspelling is the source's)/`isScheduleBased`/`delayed` as `bool`. -/
def collectPredictionAttrs : List (String × String) → PredictionAttrs →
    DecodeResult PredictionAttrs
  | [], acc => .ok acc
  | (n, v) :: rest, acc =>
      if n = "seconds" then
        match parseNat v with
        | some x => collectPredictionAttrs rest { acc with seconds := some x }
        | none => .panicked
      else if n = "minutes" then
        match parseNat v with
        | some x => collectPredictionAttrs rest { acc with minutes := some x }
        | none => .panicked
      else if n = "epochTime" then
        match parseNat v with
        | some x => collectPredictionAttrs rest { acc with epoch_time := some x }
        | none => .panicked
      else if n = "isDeparture" then
        match parseBool v with
        | some b => collectPredictionAttrs rest { acc with is_departure := some b }
        | none => .panicked
      else if n = "block" then
        collectPredictionAttrs rest { acc with block := some v }
      else if n = "dirTag" then
        collectPredictionAttrs rest { acc with dir_tag := some v }
      else if n = "tripTag" then
        collectPredictionAttrs rest { acc with trip_tag := some v }
      else if n = "branch" then
        collectPredictionAttrs rest { acc with branch := some v }
      else if n = "affecteByLayover" then
        match parseBool v with
        | some b =>
            collectPredictionAttrs rest { acc with affected_by_layover := some b }
        | none => .panicked
      else if n = "isScheduleBased" then
        match parseBool v with
        | some b =>
            collectPredictionAttrs rest { acc with is_schedule_based := some b }
        | none => .panicked
      else if n = "delayed" then
        match parseBool v with
        | some b => collectPredictionAttrs rest { acc with delayed := some b }
        | none => .panicked
      else collectPredictionAttrs rest acc

/-- `add_prediction_to_predictions` (lines 309–357): attribute walk, then
push with `seconds`/`minutes`/`epochTime`/`isDeparture`/`block`/`dirTag`
required and the rest optional. -/
def add_prediction_to_predictions (attributes : List (String × String))
    (preds : List Prediction) : DecodeResult (List Prediction) :=
  match collectPredictionAttrs attributes
      ⟨none, none, none, none, none, none, none, none, none, none, none⟩ with
  | .panicked => .panicked
  | .err e => .err e
  | .ok a =>
    match a.seconds, a.minutes, a.epoch_time, a.is_departure, a.block, a.dir_tag with
    | some seconds, some minutes, some epoch_time, some is_departure,
      some block, some dir_tag =>
        .ok (preds ++ [{ seconds, minutes, epoch_time, is_departure, block,
                         dir_tag, trip_tag := a.trip_tag, branch := a.branch,
                         affected_by_layover := a.affected_by_layover,
                         is_schedule_based := a.is_schedule_based,
                         delayed := a.delayed }])
    | _, _, _, _, _, _ => .err .parseError

/-- `parse_prediction_elements` (lines 287–307): collect `prediction`
starts, break on the `direction` end tag or a tokenizer error, ignore
everything else. -/
def parse_prediction_elements : List Event → List Prediction →
    DecodeResult (List Prediction × List Event)
  | [], preds => .ok (preds, [])
  | .start n attrs :: rest, preds =>
      if n = "prediction" then
        match add_prediction_to_predictions attrs preds with
        | .ok preds₂ => parse_prediction_elements rest preds₂
        | .err e => .err e
        | .panicked => .panicked
      else parse_prediction_elements rest preds
  | .endElement n :: rest, preds =>
      if n = "direction" then .ok (preds, rest)
      else parse_prediction_elements rest preds
  | .err :: rest, preds => .ok (preds, rest)
  | _ :: rest, preds => parse_prediction_elements rest preds

/-- `add_direction_to_directions` (lines 255–282): collect the `title`
attribute, run the nested prediction loop, then push a `Direction` with
`title` required. -/
def add_direction_to_directions (events : List Event)
    (attributes : List (String × String)) (directions : List Direction) :
    DecodeResult (List Direction × List Event) :=
  let title := attributes.foldl
    (fun acc (a : String × String) => if a.1 = "title" then some a.2 else acc)
    none
  match parse_prediction_elements events [] with
  | .panicked => .panicked
  | .err e => .err e
  | .ok (preds, rem) =>
    match title with
    | none => .err .parseError
    | some t => .ok (directions ++ [{ title := t, predictions := preds }], rem)

lemma parse_prediction_elements_rem_le (events : List Event)
    (preds res : List Prediction) (rem : List Event)
    (h : parse_prediction_elements events preds = .ok (res, rem)) :
    rem.length ≤ events.length := by
  induction events generalizing preds with
  | nil =>
      simp [parse_prediction_elements] at h
      simp [h.2.symm]
  | cons ev rest ih =>
      cases ev with
      | start n attrs =>
          by_cases hn : n = "prediction"
          · simp only [parse_prediction_elements, if_pos hn] at h
            cases hs : add_prediction_to_predictions attrs preds with
            | ok p₂ =>
                rw [hs] at h
                have := ih p₂ h
                simp only [List.length_cons]
                omega
            | err e => rw [hs] at h; cases h
            | panicked => rw [hs] at h; cases h
          · simp only [parse_prediction_elements, if_neg hn] at h
            have := ih preds h
            simp only [List.length_cons]
            omega
      | endElement n =>
          by_cases hn : n = "direction"
          · simp only [parse_prediction_elements, if_pos hn] at h
            cases h
            simp only [List.length_cons]
            omega
          · simp only [parse_prediction_elements, if_neg hn] at h
            have := ih preds h
            simp only [List.length_cons]
            omega
      | endDocument =>
          simp only [parse_prediction_elements] at h
          have := ih preds h
          simp only [List.length_cons]
          omega
      | other =>
          simp only [parse_prediction_elements] at h
          have := ih preds h
          simp only [List.length_cons]
          omega
      | err =>
          simp only [parse_prediction_elements] at h
          cases h
          simp only [List.length_cons]
          omega

/-- A successful `add_direction_to_directions` consumes a prefix of its
input. -/
lemma add_direction_rem_le (events : List Event)
    (attributes : List (String × String)) (directions res : List Direction)
    (rem : List Event)
    (h : add_direction_to_directions events attributes directions
      = .ok (res, rem)) :
    rem.length ≤ events.length := by
  unfold add_direction_to_directions at h
  cases hp : parse_prediction_elements events [] with
  | ok p =>
      obtain ⟨preds, rem'⟩ := p
      rw [hp] at h
      have := parse_prediction_elements_rem_le events [] preds rem' hp
      cases hT : attributes.foldl
          (fun acc (a : String × String) =>
            if a.1 = "title" then some a.2 else acc) none with
      | none => simp only [hT] at h; simp at h
      | some t => simp only [hT] at h; simp_all
  | err e => rw [hp] at h; simp at h
  | panicked => rw [hp] at h; simp at h

/-- `add_message_to_messages` (lines 358–379): `text` required,
`priority` optional. -/
def add_message_to_messages (attributes : List (String × String))
    (messages : List Message) : DecodeResult (List Message) :=
  let acc := attributes.foldl
    (fun (acc : Option String × Option String) (a : String × String) =>
      if a.1 = "text" then (some a.2, acc.2)
      else if a.1 = "priority" then (acc.1, some a.2)
      else acc)
    (none, none)
  match acc.1 with
  | none => .err .parseError
  | some text => .ok (messages ++ [{ text, priority := acc.2 }])

/-- Scratch state of the `PredictionsBuilder::from_xml` loop: the six
attribute options plus the two accumulated child lists. -/
structure PredState where
  agency_title : Option String
  route_tag : Option String
  route_code : Option String
  route_title : Option String
  stop_title : Option String
  dir_title_because_no_predictions : Option String
  directions : List Direction
  messages : List Message
deriving DecidableEq, Repr

/-- The attribute `for` loop over a `predictions` element
(lines 124–139); all six fields are plain strings. -/
def collectPredictionsAttrs : List (String × String) → PredState → PredState
  | [], st => st
  | (n, v) :: rest, st =>
      collectPredictionsAttrs rest
        (if n = "agencyTitle" then { st with agency_title := some v }
         else if n = "routeTag" then { st with route_tag := some v }
         else if n = "routeCode" then { st with route_code := some v }
         else if n = "routeTitle" then { st with route_title := some v }
         else if n = "stopTitle" then { st with stop_title := some v }
         else if n = "dirTitleBecauseNoPredictions" then
           { st with dir_title_because_no_predictions := some v }
         else st)

/-- The main loop of `PredictionsBuilder::from_xml` (lines 115–155):
`body` starts are skipped, a `predictions` start merges its attributes
into the running state, `direction` and `message` starts dispatch to
their helpers, `EndDocument` breaks, and — `Err(_) => break` with the
comment `// Later cover Err` — a tokenizer error also just breaks. -/
def from_xml_loop (events : List Event) (st : PredState) :
    DecodeResult PredState :=
  match events with
  | [] => .ok st
  | .start n attrs :: rest =>
      if n = "body" then from_xml_loop rest st
      else if n = "predictions" then
        from_xml_loop rest (collectPredictionsAttrs attrs st)
      else if n = "direction" then
        match hd : add_direction_to_directions rest attrs st.directions with
        | .ok (directions₂, rem) =>
            from_xml_loop rem { st with directions := directions₂ }
        | .err e => .err e
        | .panicked => .panicked
      else if n = "message" then
        match add_message_to_messages attrs st.messages with
        | .ok messages₂ => from_xml_loop rest { st with messages := messages₂ }
        | .err e => .err e
        | .panicked => .panicked
      else from_xml_loop rest st
  | .endDocument :: _ => .ok st
  | .err :: _ => .ok st
  | _ :: rest => from_xml_loop rest st
termination_by events.length
decreasing_by
  all_goals simp_wf
  all_goals
    first
      | omega
      | (have hLe := add_direction_rem_le _ _ _ _ _ hd; omega)

/-- `PredictionsBuilder::from_xml` (lines 100–167): run the loop from the
empty state, then finalize with `agencyTitle`/`routeTag`/`routeTitle`/
`stopTitle` required and `routeCode`/`dirTitleBecauseNoPredictions`
optional. -/
def from_xml (events : List Event) : DecodeResult Predictions :=
  match from_xml_loop events ⟨none, none, none, none, none, none, [], []⟩ with
  | .panicked => .panicked
  | .err e => .err e
  | .ok st =>
    match st.agency_title, st.route_tag, st.route_title, st.stop_title with
    | some agency_title, some route_tag, some route_title, some stop_title =>
        .ok { agency_title, route_tag, route_code := st.route_code,
              route_title, stop_title,
              dir_title_because_no_predictions :=
                st.dir_title_because_no_predictions,
              directions := st.directions, messages := st.messages }
    | _, _, _, _ => .err .parseError


/-- Unfolding equation for the `direction` case of the predictions loop. -/
lemma from_xml_loop_direction_step (attrs : List (String × String))
    (rest : List Event) (st : PredState) :
    from_xml_loop (Event.start "direction" attrs :: rest) st =
      match add_direction_to_directions rest attrs st.directions with
      | .ok (directions₂, rem) =>
          from_xml_loop rem { st with directions := directions₂ }
      | .err e => .err e
      | .panicked => .panicked := by
  rw [from_xml_loop]
  simp only [String.reduceEq, reduceIte]
  split <;> rename_i heq <;> rw [heq]

end predictions


/-! ## Claim theorems: the command/parameter validator -/

/-- Helper: `isOk` on a success. -/
@[simp] lemma isOk_ok {ε α : Type} (a : α) :
    (Except.ok a : Except ε α).isOk = true := rfl

/-- Helper: `isOk` on a failure. -/
@[simp] lemma isOk_error {ε α : Type} (e : ε) :
    (Except.error e : Except ε α).isOk = false := rfl

/-- Helper: the source-side emission block coincides with the
specification-side description of the emitted sequence. -/
lemma queries_eq_specEmitted (r : Request) (c : Command) :
    r.queries c = specEmitted r c := by
  rcases r with ⟨cmd, ag, rts, sts, t⟩
  rcases ag with _ | a <;> rcases rts with _ | rts <;> rcases sts with _ | sts <;>
    rcases t with _ | t <;>
    simp [Request.queries, specEmitted]

/-- A `PredictionsForMultiStops` Parameter Set whose stop list is present
but empty. -/
def pfmsEmptyStops : Request :=
  ⟨some .predictionsForMultiStops, some "test_agency", none, some [], none⟩

/-- Claim C1, counterexample: `Request::validate` accepts a
`PredictionsForMultiStops` Parameter Set whose stop list is present but
*empty* — the claim's requirement of "a non-empty stop list present" is
not what the code enforces (it only checks `self.stops == None`). -/
theorem claim1_pfms_empty_stop_list_accepted :
    pfmsEmptyStops.stops = some [] ∧
    pfmsEmptyStops.validate
      = .ok [("command", "predictionsForMultiStops"), ("a", "test_agency")] :=
  ⟨rfl, rfl⟩

/-- Claim C1 (amended): `Request::validate` succeeds exactly when a
command is set and the §4.1 table row holds, with
`PredictionsForMultiStops` amended to demand only that a stop list is
present (its emptiness is not checked); every failure, including an unset
command, is the single uniform `Error::BuildUrlError`. -/
theorem claim1_validate_matches_table (r : Request) :
    (r.validate.isOk = true ↔ specTableOk r = true)
    ∧ (specTableOk r = false → r.validate = .error .buildUrlError) := by
  rcases r with ⟨cmd, ag, rts, sts, t⟩
  rcases cmd with _ | cmd
  · simp [Request.validate, specTableOk]
  · cases cmd <;>
      rcases ag with _ | a <;> rcases rts with _ | rts <;>
      rcases sts with _ | sts <;> rcases t with _ | t <;>
      simp [Request.validate, specTableOk, List.isEmpty_iff] <;>
      (repeat' split) <;>
      first
        | rfl
        | omega
        | (simp_all; try omega)

/-- Claim C1, witness: the characterization applied at two concrete
Parameter Sets — a fresh request (command unset, rejected with the
uniform error) and an accepted `PredictionsForMultiStops` set. -/
theorem claim1_validate_matches_table_witness :
    (Request.new.validate = Except.error Error.buildUrlError) ∧
    (pfmsEmptyStops.validate.isOk = true) :=
  ⟨(claim1_validate_matches_table Request.new).2 rfl,
   (claim1_validate_matches_table pfmsEmptyStops).1.mpr (by decide)⟩

/-- Claim C4: every query-pair list accepted out of `Request::validate`
is exactly the specification's sequence — `command` first, then `a` when
the agency is present, then the `r` pairs in supplied order, then the
stop pairs in supplied order (named `s` for Predictions and `stops`
otherwise), then `t` last when the time is present; it is a function of
the Parameter Set. -/
theorem claim4_emitted_query_sequence (r : Request)
    (qs : List (String × String)) (h : r.validate = .ok qs) :
    ∃ c, r.command = some c ∧ qs = specEmitted r c := by
  rcases r with ⟨cmd, ag, rts, sts, t⟩
  rcases cmd with _ | cmd
  · simp [Request.validate] at h
  · refine ⟨cmd, rfl, ?_⟩
    rw [← queries_eq_specEmitted]
    cases cmd <;>
      simp only [Request.validate] at h <;>
      (repeat' split at h) <;>
      simp_all

/-- An accepted `Predictions` Parameter Set used as concrete input. -/
def onePredictions : Request :=
  ⟨some .predictions, some "test_agency", some ["one"], some ["stop_1"], none⟩

/-- Claim C4, witness: the emitted sequence at a concrete accepted
`Predictions` Parameter Set. -/
theorem claim4_emitted_query_sequence_witness :
    ∃ c, onePredictions.command = some c ∧
      [("command", "predictions"), ("a", "test_agency"), ("r", "one"),
       ("s", "stop_1")] = specEmitted onePredictions c :=
  claim4_emitted_query_sequence onePredictions _ rfl

/-- A `RouteConfig` Parameter Set with exactly one route. -/
def oneRouteConfig : Request :=
  ⟨some .routeConfig, some "test_agency", some ["one"], none, none⟩

/-- An accepted `VehicleLocations` Parameter Set. -/
def oneVehicleLocations : Request :=
  ⟨some .vehicleLocations, some "test_agency", some ["one"], none, some 0⟩

/-- Claim C5, counterexample: the two validator revisions are *not*
behaviorally equivalent.  On a one-route `RouteConfig` Parameter Set
`Request::validate` accepts while `NextBusUrl::new` rejects (its guard
reads `routes.len() <= 1`); and on an accepted `VehicleLocations` set
both succeed but emit the `t` pair at different positions. -/
theorem claim5_validator_revisions_diverge :
    oneRouteConfig.validate
        = .ok [("command", "routeConfig"), ("a", "test_agency"), ("r", "one")] ∧
    oneRouteConfig.nbNew = .error () ∧
    oneVehicleLocations.validate
        = .ok [("command", "vehicleLocations"), ("a", "test_agency"),
               ("r", "one"), ("t", "0")] ∧
    oneVehicleLocations.nbNew
        = .ok [("command", "vehicleLocations"), ("a", "test_agency"),
               ("t", "0"), ("r", "one")] :=
  ⟨rfl, rfl, rfl, rfl⟩

/-- Claim C5 (amended): away from the two divergences the counterexample
exhibits — the `RouteConfig` arm (acceptance differs whenever a route
list is present) and any Parameter Set carrying a time (the `t` pair is
emitted at different positions) — the two revisions agree: for every
Parameter Set whose command is not `RouteConfig` and whose time is unset,
`Request::validate` and `NextBusUrl::new` either both reject or both
accept with the same query-pair sequence. -/
theorem claim5_validators_agree_without_time_and_routeConfig (r : Request)
    (hc : r.command ≠ some Command.routeConfig) (ht : r.time = none) :
    r.validate.toOption = r.nbNew.toOption := by
  rcases r with ⟨cmd, ag, rts, sts, t⟩
  cases ht
  rcases cmd with _ | cmd
  · rfl
  · cases cmd <;>
      simp only [Request.validate, Request.nbNew, Request.queries,
        Request.nbQueries] <;>
      first
        | (exact absurd rfl hc)
        | ((repeat' split) <;> simp_all [Except.toOption])

/-- Claim C5, witness: the agreement applied at a concrete accepted
`Predictions` Parameter Set. -/
theorem claim5_validators_agree_without_time_and_routeConfig_witness :
    onePredictions.validate.toOption = onePredictions.nbNew.toOption :=
  claim5_validators_agree_without_time_and_routeConfig onePredictions
    (by decide) rfl

/-- Claim C10: on a `Request` whose route list was never set,
`append_routes` discards its argument (and `append_stops` likewise for
stops), while `add_route`/`add_stop` on the same unset state initialize
the list to a singleton. -/
theorem claim10_append_on_unset_builder (r : Request) (rts sts : List String)
    (x y : String) (hr : r.routes = none) (hs : r.stops = none) :
    r.append_routes rts = r ∧ r.append_stops sts = r ∧
    (r.add_route x).routes = some [x] ∧ (r.add_stop y).stops = some [y] := by
  rcases r with ⟨cmd, ag, rts₀, sts₀, t⟩
  simp_all [Request.append_routes, Request.append_stops,
    Request.add_route, Request.add_stop]

/-- Claim C10, witness: the append/add behavior at the fresh `Request`. -/
theorem claim10_append_on_unset_builder_witness :
    Request.new.append_routes ["r1", "r2"] = Request.new ∧
    Request.new.append_stops ["s1"] = Request.new ∧
    (Request.new.add_route "r1").routes = some ["r1"] ∧
    (Request.new.add_stop "s1").stops = some ["s1"] :=
  claim10_append_on_unset_builder Request.new ["r1", "r2"] ["s1"] "r1" "s1"
    rfl rfl

/-! ## Claim theorems: the streaming XML decoders -/

/-- A RouteConfig response whose route carries a malformed `latMin`. -/
def c2RouteDoc : List Event :=
  [.start "body" [],
   .start "route" [("tag", "N"), ("title", "North"), ("color", "00ffff"),
     ("oppositeColor", "000000"), ("latMin", "abc"), ("latMax", "39.5"),
     ("lonMin", "-76.8"), ("lonMax", "-76.3")],
   .endElement "route", .endDocument]

/-- A Predictions response whose prediction carries a malformed `seconds`. -/
def c2PredDoc : List Event :=
  [.start "body" [],
   .start "predictions" [("agencyTitle", "Agency"), ("routeTag", "R"),
     ("routeTitle", "Route"), ("stopTitle", "Stop")],
   .start "direction" [("title", "Inbound")],
   .start "prediction" [("seconds", "abc"), ("minutes", "5"),
     ("epochTime", "1455"), ("isDeparture", "false"), ("block", "B"),
     ("dirTag", "d")],
   .endElement "prediction", .endElement "direction", .endDocument]

/-- Claim C2 is refuted by the code: on a malformed numeric attribute the
decoders do not return a decode-failure value — `value.parse().unwrap()`
panics, aborting the process.  Both decodes land in the `panicked`
outcome, not in `err`. -/
theorem claim2_malformed_numeric_attribute_panics :
    route_config.from_xml c2RouteDoc = .panicked ∧
    predictions.from_xml c2PredDoc = .panicked := by
  constructor
  · simp [c2RouteDoc, route_config.from_xml, route_config.from_xml_loop,
      route_config.from_xml_loop_route_step, route_config.add_route_to_routes,
      route_config.collectRouteAttrs, parseF32, isF32Lit, isF32Mantissa,
      isDigits1]
  · simp [c2PredDoc, predictions.from_xml, predictions.from_xml_loop,
      predictions.from_xml_loop_direction_step,
      predictions.collectPredictionsAttrs,
      predictions.add_direction_to_directions,
      predictions.parse_prediction_elements,
      predictions.add_prediction_to_predictions,
      predictions.collectPredictionAttrs, parseNat, parseBool]

/-- A RouteConfig response in which the tokenizer reports a syntax error
after one complete route but before the document end. -/
def c3RouteDoc : List Event :=
  [.start "body" [],
   .start "route" [("tag", "N"), ("title", "North"), ("color", "00ffff"),
     ("oppositeColor", "000000"), ("latMin", "39.0"), ("latMax", "39.5"),
     ("lonMin", "-76.8"), ("lonMax", "-76.3")],
   .endElement "route", .err]

/-- A Predictions response in which the tokenizer reports a syntax error
right after the `predictions` attribute block. -/
def c3PredDoc : List Event :=
  [.start "body" [],
   .start "predictions" [("agencyTitle", "Agency"), ("routeTag", "R"),
     ("routeTitle", "Route"), ("stopTitle", "Stop")],
   .err]

/-- Claim C3 is refuted by the code: when the tokenizer reports a syntax
error before the response is consumed, both `from_xml` loops take the
`Err(_) => break` arm (commented `// Later cover Err`) and return `Ok`
with the partially accumulated aggregate instead of a decode failure. -/
theorem claim3_tokenizer_error_returns_partial_aggregate :
    route_config.from_xml c3RouteDoc
      = .ok ⟨[{ tag := "N", title := "North", color := "00ffff",
                opposite_color := "000000", lat_min := ⟨"39.0"⟩,
                lat_max := ⟨"39.5"⟩, lon_min := ⟨"-76.8"⟩,
                lon_max := ⟨"-76.3"⟩, stops := [], directions := [],
                paths := [] }]⟩ ∧
    predictions.from_xml c3PredDoc
      = .ok { agency_title := "Agency", route_tag := "R", route_code := none,
              route_title := "Route", stop_title := "Stop",
              dir_title_because_no_predictions := none, directions := [],
              messages := [] } := by
  constructor
  · simp [c3RouteDoc, route_config.from_xml, route_config.from_xml_loop,
      route_config.from_xml_loop_route_step, route_config.add_route_to_routes,
      route_config.collectRouteAttrs, route_config.parse_route_elements,
      parseF32, isF32Lit, isF32Mantissa, isDigits1]
  · simp [c3PredDoc, predictions.from_xml, predictions.from_xml_loop,
      predictions.collectPredictionsAttrs]

/-- The round-trip RouteConfig document of §8: one route with two stop
children, one direction referencing both stop tags in order, and one path
with two point children (and the `tag` child that carries the path's
required identifier). -/
def c6Doc : List Event :=
  [.start "body" [],
   .start "route" [("tag", "N"), ("title", "North"), ("color", "00ffff"),
     ("oppositeColor", "000000"), ("latMin", "39.0"), ("latMax", "39.5"),
     ("lonMin", "-76.8"), ("lonMax", "-76.3")],
   .start "stop" [("tag", "stop_tag_1"), ("title", "First St"),
     ("lat", "39.1"), ("lon", "-76.5")],
   .endElement "stop",
   .start "stop" [("tag", "stop_tag_2"), ("title", "Second St"),
     ("lat", "39.2"), ("lon", "-76.4"), ("shortTitle", "Second"),
     ("stopId", "0002")],
   .endElement "stop",
   .start "direction" [("tag", "N_out"), ("title", "Outbound"),
     ("name", "Outbound"), ("useForUI", "true")],
   .start "stop" [("tag", "stop_tag_1")], .endElement "stop",
   .start "stop" [("tag", "stop_tag_2")], .endElement "stop",
   .endElement "direction",
   .start "path" [],
   .start "tag" [("id", "p1")], .endElement "tag",
   .start "point" [("lat", "39.1"), ("lon", "-76.5")], .endElement "point",
   .start "point" [("lat", "39.2"), ("lon", "-76.4")], .endElement "point",
   .endElement "path",
   .endElement "route",
   .endElement "body", .endDocument]

/-- The route that decoding `c6Doc` must produce. -/
def c6Route : route_config.Route :=
  { tag := "N", title := "North", color := "00ffff",
    opposite_color := "000000", lat_min := ⟨"39.0"⟩, lat_max := ⟨"39.5"⟩,
    lon_min := ⟨"-76.8"⟩, lon_max := ⟨"-76.3"⟩,
    stops := [{ tag := "stop_tag_1", title := "First St", lat := ⟨"39.1"⟩,
                lon := ⟨"-76.5"⟩, short_title := none, stop_id := none },
              { tag := "stop_tag_2", title := "Second St", lat := ⟨"39.2"⟩,
                lon := ⟨"-76.4"⟩, short_title := some "Second",
                stop_id := some "0002" }],
    directions := [{ tag := "N_out", title := "Outbound", name := "Outbound",
                     use_for_ui := true,
                     stops := [⟨"stop_tag_1"⟩, ⟨"stop_tag_2"⟩] }],
    paths := [{ tag := "p1",
                points := [{ lat := ⟨"39.1"⟩, lon := ⟨"-76.5"⟩ },
                           { lat := ⟨"39.2"⟩, lon := ⟨"-76.4"⟩ }] }] }

/-- Claim C6: decoding the round-trip document succeeds and yields one
route whose stops list has length 2 in document order, whose first
direction's stops are the two stop tags in order, and whose first path
has two points. -/
theorem claim6_route_config_roundtrip :
    route_config.from_xml c6Doc = .ok ⟨[c6Route]⟩ ∧
    c6Route.stops.length = 2 ∧
    c6Route.stops.map route_config.Stop.tag = ["stop_tag_1", "stop_tag_2"] ∧
    c6Route.directions.map (fun d => d.stops.map route_config.StopStub.tag)
      = [["stop_tag_1", "stop_tag_2"]] ∧
    c6Route.paths.map (fun p => p.points.length) = [2] := by
  refine ⟨?_, rfl, rfl, rfl, rfl⟩
  simp [c6Doc, c6Route, route_config.from_xml, route_config.from_xml_loop,
    route_config.from_xml_loop_route_step, route_config.add_route_to_routes,
    route_config.collectRouteAttrs, route_config.parse_route_elements,
    route_config.parse_route_elements_direction_step,
    route_config.parse_route_elements_path_step,
    route_config.add_stop_to_stops, route_config.collectStopAttrs,
    route_config.parse_direction, route_config.collectDirectionAttrs,
    route_config.direction_loop, route_config.add_stop_to_direction,
    route_config.parse_path, route_config.path_loop,
    route_config.add_point_to_path, route_config.collectPointAttrs,
    parseF32, isF32Lit, isF32Mantissa, isDigits1, parseBool]

/-- First stop of the C7 documents. -/
def c7Stop1 : route_config.Stop :=
  { tag := "stop_tag_1", title := "First St", lat := ⟨"39.1"⟩,
    lon := ⟨"-76.5"⟩, short_title := none, stop_id := none }

/-- Second stop of the C7 documents. -/
def c7Stop2 : route_config.Stop :=
  { tag := "stop_tag_2", title := "Second St", lat := ⟨"39.2"⟩,
    lon := ⟨"-76.4"⟩, short_title := none, stop_id := none }

/-- A route with two stop children. -/
def c7Base : List Event :=
  [.start "body" [],
   .start "route" [("tag", "N"), ("title", "North"), ("color", "00ffff"),
     ("oppositeColor", "000000"), ("latMin", "39.0"), ("latMax", "39.5"),
     ("lonMin", "-76.8"), ("lonMax", "-76.3")],
   .start "stop" [("tag", "stop_tag_1"), ("title", "First St"),
     ("lat", "39.1"), ("lon", "-76.5")],
   .endElement "stop",
   .start "stop" [("tag", "stop_tag_2"), ("title", "Second St"),
     ("lat", "39.2"), ("lon", "-76.4")],
   .endElement "stop",
   .endElement "route",
   .endElement "body", .endDocument]

/-- The same route with an unrelated sibling element inserted between the
two stops. -/
def c7Inserted : List Event :=
  [.start "body" [],
   .start "route" [("tag", "N"), ("title", "North"), ("color", "00ffff"),
     ("oppositeColor", "000000"), ("latMin", "39.0"), ("latMax", "39.5"),
     ("lonMin", "-76.8"), ("lonMax", "-76.3")],
   .start "stop" [("tag", "stop_tag_1"), ("title", "First St"),
     ("lat", "39.1"), ("lon", "-76.5")],
   .endElement "stop",
   .start "unrelated" [],
   .endElement "unrelated",
   .start "stop" [("tag", "stop_tag_2"), ("title", "Second St"),
     ("lat", "39.2"), ("lon", "-76.4")],
   .endElement "stop",
   .endElement "route",
   .endElement "body", .endDocument]

/-- Claim C7, counterexample: inserting an unrelated sibling element among
a route's children does *not* leave the decoded result unchanged — the
sub-loop breaks at the unknown start element, the route is finalized with
the stops seen so far, and the second stop is lost. -/
theorem claim7_unrelated_sibling_changes_decode :
    route_config.from_xml c7Base
      = .ok ⟨[{ tag := "N", title := "North", color := "00ffff",
                opposite_color := "000000", lat_min := ⟨"39.0"⟩,
                lat_max := ⟨"39.5"⟩, lon_min := ⟨"-76.8"⟩,
                lon_max := ⟨"-76.3"⟩, stops := [c7Stop1, c7Stop2],
                directions := [], paths := [] }]⟩ ∧
    route_config.from_xml c7Inserted
      = .ok ⟨[{ tag := "N", title := "North", color := "00ffff",
                opposite_color := "000000", lat_min := ⟨"39.0"⟩,
                lat_max := ⟨"39.5"⟩, lon_min := ⟨"-76.8"⟩,
                lon_max := ⟨"-76.3"⟩, stops := [c7Stop1],
                directions := [], paths := [] }]⟩ ∧
    route_config.from_xml c7Inserted ≠ route_config.from_xml c7Base := by
  refine ⟨?_, ?_, ?_⟩ <;>
    simp [c7Base, c7Inserted, c7Stop1, c7Stop2, route_config.from_xml,
      route_config.from_xml_loop, route_config.from_xml_loop_route_step,
      route_config.add_route_to_routes, route_config.collectRouteAttrs,
      route_config.parse_route_elements, route_config.add_stop_to_stops,
      route_config.collectStopAttrs, parseF32, isF32Lit, isF32Mantissa,
      isDigits1]

/-- Claim C7 (amended): a start event whose element name is none of
`stop`, `direction` or `path` does not continue the sub-loop — it takes
the `else { break }` arm, ending the route's sub-loop immediately with
the children collected so far and handing the remaining events back to
the caller.  (Hence an unrelated sibling is only harmless when it follows
all of the route's recognized children.) -/
theorem claim7_unknown_start_ends_route_subloop (n : String)
    (attrs : List (String × String)) (rest : List Event)
    (stops : List route_config.Stop)
    (directions : List route_config.Direction)
    (paths : List route_config.Path)
    (h₁ : n ≠ "stop") (h₂ : n ≠ "direction") (h₃ : n ≠ "path") :
    route_config.parse_route_elements (Event.start n attrs :: rest)
        stops directions paths
      = .ok ((stops, directions, paths), rest) := by
  rw [route_config.parse_route_elements]
  simp [if_neg h₁, if_neg h₂, if_neg h₃]

/-- Claim C7, witness: the break behavior at a concrete unknown element. -/
theorem claim7_unknown_start_ends_route_subloop_witness :
    route_config.parse_route_elements
        (Event.start "unrelated" [] :: [Event.endElement "route"]) [] [] []
      = .ok (([], [], []), [Event.endElement "route"]) :=
  claim7_unknown_start_ends_route_subloop "unrelated" []
    [Event.endElement "route"] [] [] [] (by decide) (by decide) (by decide)

/-- An AgencyList document whose agency is missing `tag`. -/
def agencyDocMissingTag : List Event :=
  [.start "body" [],
   .start "agency" [("title", "Camarillo Area (CAT)"),
     ("shortTitle", "Camarillo (CAT)"), ("regionTitle", "California-Southern")],
   .endDocument]

/-- An AgencyList document whose agency is missing `title`. -/
def agencyDocMissingTitle : List Event :=
  [.start "body" [],
   .start "agency" [("tag", "camarillo"), ("shortTitle", "Camarillo (CAT)"),
     ("regionTitle", "California-Southern")],
   .endDocument]

/-- An AgencyList document whose agency is missing `regionTitle`. -/
def agencyDocMissingRegionTitle : List Event :=
  [.start "body" [],
   .start "agency" [("tag", "camarillo"), ("title", "Camarillo Area (CAT)"),
     ("shortTitle", "Camarillo (CAT)")],
   .endDocument]

/-- An AgencyList document with all required attributes plus an
unrecognized `extra` attribute carrying an arbitrary value. -/
def agencyDocExtra (v : String) : List Event :=
  [.start "body" [],
   .start "agency" [("extra", v), ("tag", "camarillo"),
     ("title", "Camarillo Area (CAT)"), ("shortTitle", "Camarillo (CAT)"),
     ("regionTitle", "California-Southern")],
   .endDocument]

/-- An AgencyList document whose agency has no `shortTitle`. -/
def agencyDocNoShortTitle : List Event :=
  [.start "body" [],
   .start "agency" [("tag", "jhu-apl"), ("title", "APL"),
     ("regionTitle", "Maryland")],
   .endDocument]

/-- Claim C8: a missing required attribute (`tag`, `title` or
`regionTitle`) is a decode failure; an unrecognized extra attribute (of
any value) is silently ignored; a missing `shortTitle` is not an error
and defaults to absent. -/
theorem claim8_agency_required_and_extra_attributes :
    agency_list.from_xml agencyDocMissingTag = .err .parseError ∧
    agency_list.from_xml agencyDocMissingTitle = .err .parseError ∧
    agency_list.from_xml agencyDocMissingRegionTitle = .err .parseError ∧
    (∀ v : String, agency_list.from_xml (agencyDocExtra v)
      = .ok ⟨[{ tag := "camarillo", title := "Camarillo Area (CAT)",
                short_title := some "Camarillo (CAT)",
                region_title := "California-Southern" }]⟩) ∧
    agency_list.from_xml agencyDocNoShortTitle
      = .ok ⟨[{ tag := "jhu-apl", title := "APL", short_title := none,
                region_title := "Maryland" }]⟩ :=
  ⟨rfl, rfl, rfl, fun _ => rfl, rfl⟩

/-- Claim C9: decoding is deterministic — two runs of a decoder on equal
event streams produce equal results; the decoders are pure functions of
the stream, with no state shared across invocations. -/
theorem claim9_decode_deterministic (s t : List Event) (h : s = t) :
    agency_list.from_xml s = agency_list.from_xml t ∧
    route_config.from_xml s = route_config.from_xml t := by
  subst h
  exact ⟨rfl, rfl⟩

/-- Claim C9, witness: determinism at a concrete document. -/
theorem claim9_decode_deterministic_witness :
    agency_list.from_xml [Event.endDocument]
        = agency_list.from_xml [Event.endDocument] ∧
    route_config.from_xml [Event.endDocument]
        = route_config.from_xml [Event.endDocument] :=
  claim9_decode_deterministic [Event.endDocument] [Event.endDocument] rfl

end Nextbus
